import Mathlib

/-
Verification of the detection/probing core of ptk-admin-panel.

The Python sources under src/ptk_admin_panel are shallowly embedded here:
pure string-processing functions become Lean functions over `List Char`
(Python `str`), code that performs I/O (subprocess runs, socket probes,
process-table enumeration) is parameterized by an explicit environment
value recording the outcome of each external interaction, and code that
can raise a Python exception returns `Except PyErr`.
-/

/-- Python strings are modelled as lists of characters (code points). -/
abbrev PyStr := List Char

/-- The ASCII whitespace set of Python's default `str.strip()` (the
exotic Unicode whitespace Python also strips never occurs in the
subprocess output this code parses). -/
def pyIsSpace (c : Char) : Bool :=
  c = ' ' || c = '\t' || c = '\n' || c = '\r' || c = '\x0b' || c = '\x0c'

/-- Python `str.strip()` with no argument: drop whitespace at both ends. -/
def pyStrip (s : PyStr) : PyStr :=
  ((s.dropWhile pyIsSpace).reverse.dropWhile pyIsSpace).reverse

/-- Python `str.rstrip(chars)`: drop trailing characters from the set `cs`. -/
def pyRStripChars (cs : PyStr) (s : PyStr) : PyStr :=
  (s.reverse.dropWhile (fun c => cs.contains c)).reverse

/-- Python `needle in hay` on strings: substring containment. -/
def containsSub (needle hay : PyStr) : Bool :=
  (List.range (hay.length + 1)).any fun i => needle.isPrefixOf (hay.drop i)

/-- Split off the text before the first occurrence of `sep` and the text
after it; `none` when `sep` does not occur (nonempty `sep` assumed, as in
every call site of Python `str.split(sep)` in this code base). -/
def breakOnSub (sep : PyStr) : PyStr → Option (PyStr × PyStr)
  | [] => if sep = [] then some ([], []) else none
  | c :: rest =>
    if sep.isPrefixOf (c :: rest) then some ([], (c :: rest).drop sep.length)
    else
      match breakOnSub sep rest with
      | none => none
      | some (pre, post) => some (c :: pre, post)

def splitOnSubAux (sep : PyStr) : Nat → PyStr → List PyStr
  | 0, s => [s]
  | fuel + 1, s =>
    match breakOnSub sep s with
    | none => [s]
    | some (pre, post) => pre :: splitOnSubAux sep fuel post

/-- Python `str.split(sep)` for a nonempty separator: split at every
non-overlapping leftmost occurrence of `sep`. -/
def splitOnSub (sep s : PyStr) : List PyStr :=
  splitOnSubAux sep (s.length + 1) s

/-- Numeric value of a decimal digit character. -/
def digToNat (c : Char) : Option Nat :=
  if c.isDigit then some (c.toNat - '0'.toNat) else none

/-- Accumulate a run of decimal digits; `none` on any non-digit. -/
def digitsToNat : Nat → PyStr → Option Nat
  | acc, [] => some acc
  | acc, c :: cs =>
    match digToNat c with
    | some d => digitsToNat (acc * 10 + d) cs
    | none => none

/-- Python `int(str)`: strip whitespace, optional sign, at least one digit.
(The underscore digit-grouping syntax Python also accepts is not modelled;
no input in this code base uses it.) -/
def pyIntParse (s : PyStr) : Option Int :=
  match pyStrip s with
  | '+' :: rest =>
    if rest = [] then none else (digitsToNat 0 rest).map Int.ofNat
  | '-' :: rest =>
    if rest = [] then none else (digitsToNat 0 rest).map (fun n => -(n : Int))
  | t => if t = [] then none else (digitsToNat 0 t).map Int.ofNat

/-- The Python exceptions the embedded code can raise. -/
inductive PyErr where
  | valueError (msg : PyStr)
  | indexError
  | noSuchProcess (pid : Nat)
  | fileNotFound (msg : PyStr)
  deriving Repr, DecidableEq

instance {ε α : Type} [DecidableEq ε] [DecidableEq α] : DecidableEq (Except ε α) :=
  fun x y =>
    match x, y with
    | .ok a, .ok b =>
      if h : a = b then .isTrue (by rw [h])
      else .isFalse (by intro hh; cases hh; exact h rfl)
    | .error a, .error b =>
      if h : a = b then .isTrue (by rw [h])
      else .isFalse (by intro hh; cases hh; exact h rfl)
    | .ok _, .error _ => .isFalse (by intro h; cases h)
    | .error _, .ok _ => .isFalse (by intro h; cases h)

/-- Python sequence indexing `l[i]`: `IndexError` when out of range. -/
def liGet {α : Type} (l : List α) (i : Nat) : Except PyErr α :=
  match l.get? i with
  | some x => .ok x
  | none => .error .indexError

/-- Python `int(s)` as an expression: raises `ValueError` when unparsable. -/
def pyIntE (s : PyStr) : Except PyErr Int :=
  match pyIntParse s with
  | some n => .ok n
  | none => .error (.valueError s)

/-
Git repository scanner — src/ptk_admin_panel/util_funcs/git_detect.py.
`repo_path` (a `pathlib.Path` in the source) is kept as a string.
-/

structure GitStatus where
  repo_path : PyStr
  branch : PyStr
  is_clean : Bool
  ahead : Int
  behind : Int
  staged : Nat
  modified : Nat
  untracked : Nat
  error : Option PyStr := none
  deriving Repr, DecidableEq

/-- The mutable counters of the parsing loop in `_parse_git_status`. -/
structure GitCounts where
  ahead : Int
  behind : Int
  staged : Nat
  modified : Nat
  untracked : Nat
  deriving Repr, DecidableEq

/-- One iteration of the `for line in lines` loop of `_parse_git_status`
(git_detect.py lines 137-171). -/
def gitStatusLine (acc : GitCounts) (line : PyStr) : Except PyErr GitCounts :=
  if line = [] then .ok acc
  else if "## ".data.isPrefixOf line then do
    let acc ←
      if containsSub "[ahead".data line then do
        let part1 ← liGet (splitOnSub "[ahead ".data line) 1
        let ahead_part ← liGet (splitOnSub "]".data part1) 0
        let a ←
          if containsSub ",".data ahead_part then do
            let p0 ← liGet (splitOnSub ",".data ahead_part) 0
            pyIntE p0
          else pyIntE ahead_part
        pure { acc with ahead := a }
      else pure acc
    if containsSub "behind".data line then do
      let part1 ← liGet (splitOnSub "behind ".data line) 1
      let behind_part ← liGet (splitOnSub "]".data part1) 0
      let b ← pyIntE (pyRStripChars "]".data behind_part)
      pure { acc with behind := b }
    else pure acc
  else
    match line with
    | x :: y :: _ =>
      let acc :=
        if ['M', 'A', 'D', 'R', 'C'].contains x then
          { acc with staged := acc.staged + 1 }
        else acc
      let acc := if y = 'M' then { acc with modified := acc.modified + 1 } else acc
      let acc :=
        if "??".data.isPrefixOf line then
          { acc with untracked := acc.untracked + 1 }
        else acc
      .ok acc
    | _ => .ok acc

/-- `_parse_git_status` from util_funcs/git_detect.py (lines 117-184). -/
def _parse_git_status (repo_path branch status_output : PyStr) :
    Except PyErr GitStatus :=
  let lines := splitOnSub "\n".data (pyStrip status_output)
  match lines.foldlM gitStatusLine ⟨0, 0, 0, 0, 0⟩ with
  | .error e => .error e
  | .ok c =>
    .ok
      { repo_path, branch
        is_clean := c.staged == 0 && c.modified == 0 && c.untracked == 0
        ahead := c.ahead, behind := c.behind
        staged := c.staged, modified := c.modified, untracked := c.untracked
        error := none }

/-- Outcome of one `subprocess.run` invocation, as observed by the caller. -/
inductive RunOutcome where
  | timeout (msg : PyStr)
  | notFound (msg : PyStr)
  | completed (returncode : Int) (stdout : PyStr) (stderr : PyStr)
  deriving Repr, DecidableEq

/-- The two subprocess results consumed by `_get_git_status` for one repo. -/
structure GitCmdEnv where
  branchResult : RunOutcome
  statusResult : RunOutcome
  deriving Repr, DecidableEq

/-- `_get_git_status` from util_funcs/git_detect.py (lines 47-114).
The branch command catches both `TimeoutExpired` and `FileNotFoundError`;
the status command catches only `TimeoutExpired`, so a `FileNotFoundError`
there propagates. -/
def _get_git_status (env : GitCmdEnv) (repo_path : PyStr) :
    Except PyErr GitStatus :=
  match env.branchResult with
  | .timeout e =>
    .ok { repo_path, branch := "unknown".data, is_clean := false
          ahead := 0, behind := 0, staged := 0, modified := 0, untracked := 0
          error := some e }
  | .notFound e =>
    .ok { repo_path, branch := "unknown".data, is_clean := false
          ahead := 0, behind := 0, staged := 0, modified := 0, untracked := 0
          error := some e }
  | .completed rc out _ =>
    let branch := if rc == 0 then pyStrip out else "unknown".data
    match env.statusResult with
    | .timeout e =>
      .ok { repo_path, branch, is_clean := false
            ahead := 0, behind := 0, staged := 0, modified := 0, untracked := 0
            error := some e }
    | .notFound e => .error (.fileNotFound e)
    | .completed rc2 out2 err2 =>
      if rc2 ≠ 0 then
        .ok { repo_path, branch, is_clean := false
              ahead := 0, behind := 0, staged := 0, modified := 0
              untracked := 0, error := some (pyStrip err2) }
      else _parse_git_status repo_path branch out2

/-- `scan_git_repos` composed with repository discovery: the filesystem walk
is abstracted to the discovered repo list, each paired with its subprocess
environment. -/
def scan_git_repos (repos : List (PyStr × GitCmdEnv)) :
    Except PyErr (List GitStatus) :=
  repos.mapM fun pe => _get_git_status pe.2 pe.1

/-
Legacy flat module — src/ptk_admin_panel/util_funcs.py, class GitDetector.
The method `GitDetector._parse_git_status` (lines 762-830) is the legacy
duplicate of the parser above; it is embedded independently, line for line
from its own source text.
-/

namespace GitDetector

/-- One iteration of the `for line in lines` loop of the legacy
`GitDetector._parse_git_status` (util_funcs.py lines 782-817). -/
def gitStatusLine (acc : GitCounts) (line : PyStr) : Except PyErr GitCounts :=
  if line = [] then .ok acc
  else if "## ".data.isPrefixOf line then do
    let acc ←
      if containsSub "[ahead".data line then do
        let part1 ← liGet (splitOnSub "[ahead ".data line) 1
        let ahead_part ← liGet (splitOnSub "]".data part1) 0
        let a ←
          if containsSub ",".data ahead_part then do
            let p0 ← liGet (splitOnSub ",".data ahead_part) 0
            pyIntE p0
          else pyIntE ahead_part
        pure { acc with ahead := a }
      else pure acc
    if containsSub "behind".data line then do
      let part1 ← liGet (splitOnSub "behind ".data line) 1
      let behind_part ← liGet (splitOnSub "]".data part1) 0
      let b ← pyIntE (pyRStripChars "]".data behind_part)
      pure { acc with behind := b }
    else pure acc
  else
    match line with
    | x :: y :: _ =>
      let acc :=
        if ['M', 'A', 'D', 'R', 'C'].contains x then
          { acc with staged := acc.staged + 1 }
        else acc
      let acc := if y = 'M' then { acc with modified := acc.modified + 1 } else acc
      let acc :=
        if "??".data.isPrefixOf line then
          { acc with untracked := acc.untracked + 1 }
        else acc
      .ok acc
    | _ => .ok acc

/-- The legacy `GitDetector._parse_git_status` (util_funcs.py lines 762-830).
The nested class `GitDetector.GitStatus` it returns has field-for-field the
same shape as the one in git_detect.py, so both are embedded with the one
`GitStatus` structure. -/
def _parse_git_status (repo_path branch status_output : PyStr) :
    Except PyErr GitStatus :=
  let lines := splitOnSub "\n".data (pyStrip status_output)
  match lines.foldlM GitDetector.gitStatusLine ⟨0, 0, 0, 0, 0⟩ with
  | .error e => .error e
  | .ok c =>
    .ok
      { repo_path, branch
        is_clean := c.staged == 0 && c.modified == 0 && c.untracked == 0
        ahead := c.ahead, behind := c.behind
        staged := c.staged, modified := c.modified, untracked := c.untracked
        error := none }

end GitDetector

/-
Shared duration formatting — src/ptk_admin_panel/util_funcs/common.py,
`format_timedelta` (lines 13-31).
-/

/-- A normalized `datetime.timedelta`: `days` may be negative, `seconds`
is the in-day remainder (`0 <= seconds < 86400` for values produced by
Python). Microseconds are not read by `format_timedelta` and are omitted. -/
structure TimeDelta where
  days : Int
  seconds : Nat
  deriving Repr, DecidableEq

/-- `datetime.timedelta(seconds=n)` for a whole number of seconds:
Python normalizes with floor division into days plus in-day seconds. -/
def mkTimedelta (totalSeconds : Int) : TimeDelta :=
  { days := Int.fdiv totalSeconds 86400
    seconds := (Int.fmod totalSeconds 86400).toNat }

/-- `hours = time_delta.seconds // 3600`. -/
def tdHours (td : TimeDelta) : Nat := td.seconds / 3600

/-- `minutes = (time_delta.seconds % 3600) // 60`. -/
def tdMinutes (td : TimeDelta) : Nat := td.seconds % 3600 / 60

/-- `seconds = time_delta.seconds % 60`. -/
def tdSecs (td : TimeDelta) : Nat := td.seconds % 60

def pyNatReprAux : Nat → Nat → PyStr
  | 0, _ => []
  | _ + 1, 0 => []
  | fuel + 1, n => pyNatReprAux fuel (n / 10) ++ [Char.ofNat ('0'.toNat + n % 10)]

/-- Decimal rendering of a nonnegative integer, as in a Python f-string. -/
def pyNatRepr (n : Nat) : PyStr :=
  if n = 0 then ['0'] else pyNatReprAux (n + 1) n

/-- Python f-string interpolation of an `int`. -/
def pyIntRepr (i : Int) : PyStr :=
  if i < 0 then '-' :: pyNatRepr i.natAbs else pyNatRepr i.toNat

/-- One appended part, for example `"3 days"`:
`f"{n} unit{'s' if n != 1 else ''}"`. -/
def fmtUnit (n : Int) (unit : PyStr) : PyStr :=
  pyIntRepr n ++ (' ' :: (unit ++ if n = 1 then [] else ['s']))

/-- The `uptime_parts` list built by `format_timedelta` before joining. -/
def formatParts (td : TimeDelta) (incl_seconds : Bool) : List PyStr :=
  (if td.days > 0 then [fmtUnit td.days "day".data] else []) ++
  (if tdHours td > 0 ∨ td.days > 0 then
      [fmtUnit (tdHours td) "hour".data] else []) ++
  (if tdMinutes td > 0 ∨ tdHours td > 0 ∨ td.days > 0 then
      [fmtUnit (tdMinutes td) "minute".data] else []) ++
  (if incl_seconds then [fmtUnit (tdSecs td) "second".data] else [])

/-- `format_timedelta` from util_funcs/common.py (lines 13-31):
`", ".join(uptime_parts)`. -/
def format_timedelta (td : TimeDelta) (incl_seconds : Bool) : PyStr :=
  List.intercalate ", ".data (formatParts td incl_seconds)

/-
Process & socket inventory — src/ptk_admin_panel/util_funcs/common.py,
`get_connections_list_filtered` (lines 36-41).
-/

/-- A psutil `sconn` row as read by this code base: local address (ip,
port) and the status string. For `kind="inet"` psutil always populates
`laddr` with an `addr(ip, port)` named tuple; the remote address and
fd/pid fields are never read by the code under verification. -/
structure Sconn where
  ip : PyStr
  port : Nat
  status : PyStr
  deriving Repr, DecidableEq

/-- Python string `<`: lexicographic comparison by code point. -/
def pyStrLt : PyStr → PyStr → Bool
  | [], [] => false
  | [], _ :: _ => true
  | _ :: _, [] => false
  | a :: as, b :: bs => if a < b then true else if b < a then false else pyStrLt as bs

/-- Python tuple comparison `c.laddr <= d.laddr` on the `(ip, port)` named
tuples, the sort key of `get_connections_list_filtered`. -/
def laddrLEb (a b : Sconn) : Bool :=
  pyStrLt a.ip b.ip || (a.ip == b.ip && decide (a.port ≤ b.port))

/-- The ordering relation "sorted ascending by local (ip, port)". -/
def laddrLe (a b : Sconn) : Prop := laddrLEb a b = true

instance : DecidableRel laddrLe := fun a b => by unfold laddrLe; infer_instance

/-- `get_connections_list_filtered` from util_funcs/common.py (lines
36-41): drop TIME_WAIT rows from the psutil snapshot, then `list.sort`
by the `laddr` tuple. Python's `list.sort` is a stable sort, and any two
stable sorts under the same total preorder agree, so it is modelled by a
stable insertion sort. -/
def get_connections_list_filtered (conns_list : List Sconn) : List Sconn :=
  (conns_list.filter fun c => c.status ≠ "TIME_WAIT".data).insertionSort laddrLe

theorem pyStrLt_trans :
    ∀ (s t u : PyStr), pyStrLt s t = true → pyStrLt t u = true →
      pyStrLt s u = true := by
  intro s
  induction s with
  | nil =>
    intro t u h1 h2
    cases t with
    | nil => simp [pyStrLt] at h1
    | cons b bs =>
      cases u with
      | nil => simp [pyStrLt] at h2
      | cons c cs => simp [pyStrLt]
  | cons a as ih =>
    intro t u h1 h2
    cases t with
    | nil => simp [pyStrLt] at h1
    | cons b bs =>
      cases u with
      | nil => simp [pyStrLt] at h2
      | cons c cs =>
        simp only [pyStrLt] at h1 h2 ⊢
        by_cases hab : a < b
        · by_cases hbc : b < c
          · simp [lt_trans hab hbc]
          · rw [if_neg hbc] at h2
            by_cases hcb : c < b
            · rw [if_pos hcb] at h2; exact absurd h2 (by simp)
            · have hbceq : b = c := le_antisymm (not_lt.mp hcb) (not_lt.mp hbc)
              subst hbceq; simp [hab]
        · rw [if_neg hab] at h1
          by_cases hba : b < a
          · rw [if_pos hba] at h1; exact absurd h1 (by simp)
          · have habeq : a = b := le_antisymm (not_lt.mp hba) (not_lt.mp hab)
            subst habeq
            rw [if_neg (lt_irrefl a)] at h1
            by_cases hac : a < c
            · simp [hac]
            · rw [if_neg hac] at h2 ⊢
              by_cases hca : c < a
              · rw [if_pos hca] at h2; exact absurd h2 (by simp)
              · rw [if_neg hca] at h2 ⊢
                exact ih bs cs h1 h2

theorem pyStrLt_trichotomy :
    ∀ (s t : PyStr), pyStrLt s t = true ∨ s = t ∨ pyStrLt t s = true := by
  intro s
  induction s with
  | nil =>
    intro t
    cases t with
    | nil => exact Or.inr (Or.inl rfl)
    | cons b bs => exact Or.inl (by simp [pyStrLt])
  | cons a as ih =>
    intro t
    cases t with
    | nil => exact Or.inr (Or.inr (by simp [pyStrLt]))
    | cons b bs =>
      rcases lt_trichotomy a b with h | h | h
      · exact Or.inl (by simp [pyStrLt, h])
      · subst h
        rcases ih bs with h2 | h2 | h2
        · exact Or.inl (by simp [pyStrLt, lt_irrefl, h2])
        · exact Or.inr (Or.inl (by rw [h2]))
        · exact Or.inr (Or.inr (by simp [pyStrLt, lt_irrefl, h2]))
      · exact Or.inr (Or.inr (by simp [pyStrLt, h, not_lt.mpr (le_of_lt h)]))

theorem laddrLEb_total (a b : Sconn) : (laddrLEb a b || laddrLEb b a) = true := by
  unfold laddrLEb
  rcases pyStrLt_trichotomy a.ip b.ip with h | h | h
  · simp [h]
  · simp only [h, beq_self_eq_true, Bool.true_and, Bool.or_eq_true,
      decide_eq_true_eq]
    rcases Nat.le_total a.port b.port with hp | hp
    · exact Or.inl (Or.inr hp)
    · exact Or.inr (Or.inr hp)
  · simp [h]

theorem laddrLEb_trans (a b c : Sconn) :
    laddrLEb a b = true → laddrLEb b c = true → laddrLEb a c = true := by
  unfold laddrLEb
  simp only [Bool.or_eq_true, Bool.and_eq_true, beq_iff_eq, decide_eq_true_eq]
  rintro (h1 | ⟨h1, h1p⟩) (h2 | ⟨h2, h2p⟩)
  · exact Or.inl (pyStrLt_trans _ _ _ h1 h2)
  · rw [h2] at h1; exact Or.inl h1
  · rw [h1]; exact Or.inl h2
  · exact Or.inr ⟨h1.trans h2, le_trans h1p h2p⟩

instance : IsTotal Sconn laddrLe :=
  ⟨fun a b => by
    unfold laddrLe
    rcases Bool.or_eq_true_iff.mp (laddrLEb_total a b) with h | h
    · exact Or.inl h
    · exact Or.inr h⟩

instance : IsTrans Sconn laddrLe :=
  ⟨fun a b c h1 h2 => laddrLEb_trans a b c h1 h2⟩

/-
SSH detector — src/ptk_admin_panel/util_funcs/ssh_detector.py.
-/

/-- A process-table entry as seen by `psutil.process_iter()`. `name` is
the result of the later `process.name()` call: `none` means the process
vanished between enumeration and inspection, in which case that call
raises `psutil.NoSuchProcess`. -/
structure Proc where
  pid : Nat
  name : Option PyStr
  deriving Repr, DecidableEq

/-- `_is_sshd_running` from ssh_detector.py (lines 59-65): linear scan of
the process table for a process literally named "sshd". The `name()` call
is not guarded by any try/except. -/
def _is_sshd_running : List Proc → Except PyErr (Bool × Option Nat)
  | [] => .ok (false, none)
  | p :: rest =>
    match p.name with
    | none => .error (.noSuchProcess p.pid)
    | some n =>
      if n = "sshd".data then .ok (true, some p.pid) else _is_sshd_running rest

/-- Python `str.splitlines()` boundary characters. -/
def pyIsLineBreak (c : Char) : Bool :=
  c = '\n' || c = '\r' || c = '\x0b' || c = '\x0c' || c = '\x1c' ||
  c = '\x1d' || c = '\x1e' || c = '\x85' || c = '\u2028' || c = '\u2029'

/-- Python `str.find(needle)` restricted to a found index. -/
def subIdx (needle hay : PyStr) : Option Nat :=
  (List.range (hay.length + 1)).find? fun i => needle.isPrefixOf (hay.drop i)

/-- `_probe_ssh_once` from ssh_detector.py (lines 84-109). The socket
interaction is abstracted to its observable outcome `recvd`: `none` when
the connect or the recv raises `OSError`/`socket.timeout`, otherwise the
received chunk decoded with `errors="ignore"` (which never fails, so the
ascii fallback branch of the source is dead code). -/
def _probe_ssh_once (recvd : Option PyStr) : Option PyStr :=
  match recvd with
  | none => none
  | some data =>
    if data = [] then none
    else
      let banner := pyStrip data
      if "SSH-".data.isPrefixOf banner then some banner
      else if containsSub "SSH-".data banner then
        match subIdx "SSH-".data banner with
        | some idx => some ((banner.drop idx).takeWhile fun c => !pyIsLineBreak c)
        | none => none
      else none

/-- The contents of the `ports` set built by the loop of
`_detect_ssh_port_unpriveleged` (lines 71-76): the local ports of the
LISTEN connections whose probe result is truthy, without duplicates. -/
def matchedPortsList (recv : PyStr → Nat → Option PyStr) (conns : List Sconn) :
    List Nat :=
  (conns.filterMap fun c =>
    if c.status = "LISTEN".data then
      match _probe_ssh_once (recv c.ip c.port) with
      | some b => if b ≠ [] then some c.port else none
      | none => none
    else none).dedup

/-- `_detect_ssh_port_unpriveleged` from ssh_detector.py (lines 68-81).
`set.pop()` removes an unspecified element; it is modelled by the
environment function `pick`, assumed (in the theorems) to choose a member
of any nonempty list. The returned Bool records whether the
more-than-one-port warning was printed. -/
def _detect_ssh_port_unpriveleged (pick : List Nat → Nat)
    (recv : PyStr → Nat → Option PyStr) (conns : List Sconn) :
    Option Nat × Bool :=
  let ports := matchedPortsList recv conns
  let warned := decide (1 < ports.length)
  if ports.isEmpty then (none, warned) else (some (pick ports), warned)

/-- `_get_ssh_connections` from ssh_detector.py (lines 112-120): the dict
from a 1-based running counter to each ESTABLISHED connection on the port,
in scan order, modelled as an association list. -/
def _get_ssh_connections (ssh_port : Nat) (conns : List Sconn) :
    List (Nat × Sconn) :=
  ((conns.filter fun c =>
      c.port == ssh_port && c.status == "ESTABLISHED".data).enum).map
    fun ic => (ic.1 + 1, ic.2)

/-- `SSHStatus` from ssh_detector.py (lines 20-26). -/
structure SSHStatus where
  is_active : Bool
  active_connections : Option (List (Nat × Sconn))
  port : Option Nat
  pid : Option Nat
  error_message : Option PyStr := none
  deriving Repr, DecidableEq

/-- The environment of one `get_ssh_status` call: the psutil process
table, the psutil connection snapshot, the socket-probe outcomes, and the
`set.pop()` choice function. -/
structure SSHEnv where
  procs : List Proc
  conns : List Sconn
  recv : PyStr → Nat → Option PyStr
  pick : List Nat → Nat

/-- The cache consultation of `get_ssh_status` (ssh_detector.py lines
43-47): resulting `ssh_port`, new `ModuleCache.ssh_port`, and whether
`_detect_ssh_port_unpriveleged` ran (i.e. whether sockets were probed).
The cache test is Python truthiness (`if ModuleCache.ssh_port:`), so a
cached value of 0 is treated like an absent one. -/
def sshPortStep (env : SSHEnv) (connections : List Sconn) (cache : Option Nat) :
    Option Nat × Option Nat × Bool :=
  match cache with
  | some p =>
    if p ≠ 0 then ((some p : Option Nat), (some p : Option Nat), false)
    else
      let r := (_detect_ssh_port_unpriveleged env.pick env.recv connections).1
      (r, r, true)
  | none =>
    let r := (_detect_ssh_port_unpriveleged env.pick env.recv connections).1
    (r, r, true)

/-- The `if ssh_port:` step of `get_ssh_status` (lines 48-49): count
established connections only for a truthy (nonzero, non-None) port. -/
def sshConnsStep (ssh_port : Option Nat) (connections : List Sconn) :
    Option (List (Nat × Sconn)) :=
  match ssh_port with
  | some p =>
    if p ≠ 0 then some (_get_ssh_connections p connections) else none
  | none => none

/-- `get_ssh_status` from ssh_detector.py (lines 30-56). The module-level
`ModuleCache.ssh_port` is threaded explicitly: the call takes the cache
before the call and returns the triple (status, cache after the call,
whether `_detect_ssh_port_unpriveleged` ran, i.e. whether sockets were
probed). An exception from `_is_sshd_running` propagates. -/
def get_ssh_status (env : SSHEnv) (cache : Option Nat) :
    Except PyErr (SSHStatus × Option Nat × Bool) :=
  match _is_sshd_running env.procs with
  | .error e => .error e
  | .ok (is_active, pid) =>
    let connections := get_connections_list_filtered env.conns
    let step := sshPortStep env connections cache
    let ssh_port := step.1
    let cache2 := step.2.1
    let probed := step.2.2
    let ssh_conns := sshConnsStep ssh_port connections
    .ok ({ is_active, active_connections := ssh_conns, port := ssh_port, pid },
         cache2, probed)

/-
Tmux detector — src/ptk_admin_panel/util_funcs/tmux.py.
Only the session/client listing logic is embedded; the subprocess calls
are abstracted to their observable output text.
-/

/-- `TmuxClient` from tmux.py (lines 14-22). -/
structure TmuxClient where
  session_name : PyStr
  window_index : Int
  pane_index : Int
  client_name : PyStr
  terminal : PyStr
  created : PyStr
  deriving Repr, DecidableEq

/-- `TmuxSession` from tmux.py (lines 25-31). -/
structure TmuxSession where
  name : PyStr
  windows : Int
  created : PyStr
  attached : Bool
  clients : List TmuxClient
  deriving Repr, DecidableEq

/-- Decimal value of a digit run. -/
def digitsVal (d : PyStr) : Nat :=
  d.foldl (fun a c => a * 10 + (c.toNat - '0'.toNat)) 0

/-- An exact decimal number `num / den`, with `den` a power of ten by
construction: the value a parsed Python float literal denotes, kept exact
(binary rounding of IEEE-754 floats is outside the model; the code under
verification feeds it tmux epoch timestamps). -/
structure PyFloat where
  num : Int
  den : Nat
  deriving Repr, DecidableEq

/-- Exact subtraction on decimal fractions (Python float `-`). -/
def pyFloatSub (a b : PyFloat) : PyFloat :=
  { num := a.num * (b.den : Int) - b.num * (a.den : Int), den := a.den * b.den }

/-- `math.floor` of a decimal fraction. -/
def pyFloatFloor (a : PyFloat) : Int := Int.fdiv a.num (a.den : Int)

/-- Python `float(str)`, modelled exactly: strip, optional sign, decimal
digits with optional fraction and optional exponent. (`inf` and `nan`
spellings are outside the model.) -/
def pyFloatParse (s : PyStr) : Option PyFloat :=
  let t := pyStrip s
  let signAndRest : Bool × PyStr :=
    match t with
    | '+' :: r => (false, r)
    | '-' :: r => (true, r)
    | r => (false, r)
  let neg := signAndRest.1
  let t1 := signAndRest.2
  let ip := t1.takeWhile Char.isDigit
  let r1 := t1.dropWhile Char.isDigit
  let fracAndRest : PyStr × PyStr :=
    match r1 with
    | '.' :: r => (r.takeWhile Char.isDigit, r.dropWhile Char.isDigit)
    | r => ([], r)
  let fpd := fracAndRest.1
  let r2 := fracAndRest.2
  let expPart : Bool × Int × PyStr :=
    match r2 with
    | 'e' :: r | 'E' :: r =>
      let esignAndRest : Bool × PyStr :=
        match r with
        | '+' :: rr => (false, rr)
        | '-' :: rr => (true, rr)
        | rr => (false, rr)
      let ed := esignAndRest.2.takeWhile Char.isDigit
      let r4 := esignAndRest.2.dropWhile Char.isDigit
      (ed ≠ [],
       if esignAndRest.1 then -(digitsVal ed : Int) else (digitsVal ed : Int),
       r4)
    | r => (true, 0, r)
  if (ip ≠ [] ∨ fpd ≠ []) ∧ expPart.1 = true ∧ expPart.2.2 = [] then
    let scale := Nat.pow 10 fpd.length
    let baseN : Nat := digitsVal ip * scale + digitsVal fpd
    let num0 : Int := if neg then -(baseN : Int) else (baseN : Int)
    let ev := expPart.2.1
    if 0 ≤ ev then
      some { num := num0 * ((Nat.pow 10 ev.toNat : Nat) : Int), den := scale }
    else
      some { num := num0, den := scale * Nat.pow 10 (-ev).toNat }
  else none

/-- Python `float(s)` as an expression: `ValueError` when unparsable. -/
def pyFloatE (s : PyStr) : Except PyErr PyFloat :=
  match pyFloatParse s with
  | some q => .ok q
  | none => .error (.valueError s)

/-- `datetime.now() - datetime.fromtimestamp(x)` as a normalized
timedelta: Python truncates the float difference to timedelta fields,
whose `days`/`seconds` attributes floor-divide the total. -/
def tdOfFloatSeconds (q : PyFloat) : TimeDelta :=
  { days := Int.fdiv (pyFloatFloor q) 86400
    seconds := (Int.fmod (pyFloatFloor q) 86400).toNat }

/-- The environment of the tmux listing calls: the (already stripped)
stdout of `tmux list-sessions` (`none` when the command failed), the
stdout of `tmux list-clients -t <session>` per session name, and the
wall-clock `datetime.now()` in epoch seconds. -/
structure TmuxEnv where
  sessionsOutput : Option PyStr
  clientsOutput : PyStr → Option PyStr
  now : PyFloat

/-- One iteration of the parsing loop of `_get_clients_for_session`
(tmux.py lines 189-206): split on the pipe, skip the line unless it has
exactly 6 fields, `int()` the two index fields (raising on failure). -/
def tmuxClientLine (acc : List TmuxClient) (line : PyStr) :
    Except PyErr (List TmuxClient) :=
  if line = [] then .ok acc
  else
    match splitOnSub "|".data line with
    | [sess_name, win_idx, pane_idx, client_name, terminal, created] => do
      let wi ← pyIntE win_idx
      let pidx ← pyIntE pane_idx
      .ok (acc ++ [{ session_name := sess_name, window_index := wi
                     pane_index := pidx, client_name, terminal, created }])
    | _ => .ok acc

/-- `_get_clients_for_session` from tmux.py (lines 174-208). -/
def _get_clients_for_session (env : TmuxEnv) (session_name : PyStr) :
    Except PyErr (List TmuxClient) :=
  match env.clientsOutput session_name with
  | none => .ok []
  | some out =>
    if out = [] then .ok []
    else (splitOnSub "\n".data out).foldlM tmuxClientLine []

/-- One iteration of the `for line in output.split("\n")` loop of
`_get_sessions` (tmux.py lines 139-169): empty lines and lines without
exactly 4 pipe-separated fields are skipped; a 4-field line has its
created field parsed with `float()` inside a try whose handler re-raises,
its clients fetched, its window count parsed with `int()` (unguarded),
and `attached` set iff the 4th field is not the literal "0". -/
def tmuxSessionLine (env : TmuxEnv) (acc : List TmuxSession) (line : PyStr) :
    Except PyErr (List TmuxSession) :=
  if line = [] then .ok acc
  else
    match splitOnSub "|".data line with
    | [session_name, windows_str, created_str, attached_str] =>
      match pyFloatE created_str with
      | .error e => .error e
      | .ok created_float =>
        let created_delta := tdOfFloatSeconds (pyFloatSub env.now created_float)
        let created_formatted := format_timedelta created_delta false
        match _get_clients_for_session env session_name with
        | .error e => .error e
        | .ok clients =>
          match pyIntE windows_str with
          | .error e => .error e
          | .ok wi =>
            .ok (acc ++ [{ name := session_name, windows := wi
                           created := created_formatted
                           attached := attached_str != "0".data, clients }])
    | _ => .ok acc

/-- `_get_sessions` from tmux.py (lines 125-171). -/
def _get_sessions (env : TmuxEnv) : Except PyErr (List TmuxSession) :=
  match env.sessionsOutput with
  | none => .ok []
  | some out =>
    if out = [] then .ok []
    else (splitOnSub "\n".data out).foldlM (tmuxSessionLine env) []

/-
Theorems for the frozen claims.
-/

theorem gitFold_nil_lines :
    ∀ (lines : List PyStr) (acc : GitCounts),
      (∀ l ∈ lines, l = []) →
        lines.foldlM gitStatusLine acc = .ok acc := by
  intro lines
  induction lines with
  | nil => intro acc _; rfl
  | cons x xs ih =>
    intro acc h
    have hx : x = [] := h x (List.mem_cons_self x xs)
    subst hx
    exact ih acc fun l hl => h l (List.mem_cons_of_mem _ hl)

/-- C1: on the spec's sample porcelain output the parser yields ahead=2,
behind=1, staged=1, modified=0, untracked=1, is_clean=false (for any repo
path and branch), and on input with no branch header and no status lines
(no nonempty lines at all) it yields all counters 0 and is_clean=true. -/
theorem git_parse_status_vectors (repo branch s : PyStr)
    (h : ∀ l ∈ splitOnSub "\n".data (pyStrip s), l = []) :
    _parse_git_status repo branch
        "## main...origin/main [ahead 2, behind 1]\nM  file.txt\n?? new.txt\n".data =
      .ok { repo_path := repo, branch, is_clean := false, ahead := 2, behind := 1
            staged := 1, modified := 0, untracked := 1, error := none } ∧
    _parse_git_status repo branch s =
      .ok { repo_path := repo, branch, is_clean := true, ahead := 0, behind := 0
            staged := 0, modified := 0, untracked := 0, error := none } := by
  constructor
  · rfl
  · simp only [_parse_git_status]
    rw [gitFold_nil_lines _ _ h]
    rfl

theorem git_parse_status_vectors_witness :
    _parse_git_status "r".data "b".data
        "## main...origin/main [ahead 2, behind 1]\nM  file.txt\n?? new.txt\n".data =
      .ok { repo_path := "r".data, branch := "b".data, is_clean := false
            ahead := 2, behind := 1, staged := 1, modified := 0, untracked := 1
            error := none } ∧
    _parse_git_status "r".data "b".data "\n \n".data =
      .ok { repo_path := "r".data, branch := "b".data, is_clean := true
            ahead := 0, behind := 0, staged := 0, modified := 0, untracked := 0
            error := none } :=
  git_parse_status_vectors "r".data "b".data "\n \n".data (by decide)

/-- C9: the legacy `GitDetector._parse_git_status` of the flat util_funcs
module and the de-duplicated `_parse_git_status` of the git_detect module
agree on every repo path, branch and status output, field for field. -/
theorem git_parse_legacy_agrees (repo branch status_output : PyStr) :
    GitDetector._parse_git_status repo branch status_output =
      _parse_git_status repo branch status_output := rfl


/-- `"0 minutes"` is never the seconds part: the unit suffixes differ. -/
theorem fmtUnit_zero_minute_ne_second (n : Nat) :
    fmtUnit 0 "minute".data ≠ fmtUnit (n : Int) "second".data := by
  intro h
  have hL : fmtUnit 0 "minute".data = "0 minutes".data := by decide
  rw [hL] at h
  by_cases hn : (n : Int) = 1
  · have hn1 : n = 1 := by exact_mod_cast hn
    subst hn1
    exact absurd h (by decide)
  · have hR : fmtUnit (n : Int) "second".data =
        pyIntRepr (n : Int) ++ " seconds".data := by
      simp only [fmtUnit, if_neg hn]
      rfl
    rw [hR] at h
    have h2 := congrArg (fun l => l.reverse[1]?) h
    simp only [List.reverse_append] at h2
    rw [show (" seconds".data.reverse : PyStr) = "sdnoces ".data from rfl] at h2
    rw [List.getElem?_append] at h2
    rw [if_pos (by decide : (1 : Nat) < "sdnoces ".data.length)] at h2
    exact absurd h2 (by decide)

/-- C3 (counterexample): 45 seconds with `incl_seconds=true` does NOT
format as the claimed `"0 minutes, 45 seconds"` — the minutes part is
omitted when minutes, hours and days are all 0. -/
theorem format_timedelta_45s_counterexample :
    format_timedelta (mkTimedelta 45) true ≠ "0 minutes, 45 seconds".data := by
  decide

/-- C3 (amended): 90061 seconds formats as "1 day, 1 hour, 1 minute"
(seconds excluded when `incl_seconds` is false); 45 seconds with
`incl_seconds=true` formats as "45 seconds"; and in general the minutes
part is emitted exactly when minutes > 0 or a larger unit is present, so
a standalone "0 minutes" is never emitted. -/
theorem format_timedelta_vectors_and_minutes_rule :
    format_timedelta (mkTimedelta 90061) false = "1 day, 1 hour, 1 minute".data ∧
    format_timedelta (mkTimedelta 45) true = "45 seconds".data ∧
    ∀ (td : TimeDelta) (incl_seconds : Bool),
      (fmtUnit (tdMinutes td) "minute".data ∈ formatParts td incl_seconds ↔
        (0 < tdMinutes td ∨ 0 < tdHours td ∨ 0 < td.days)) := by
  refine ⟨by decide, by decide, ?_⟩
  intro td incl_seconds
  constructor
  · intro hmem
    by_contra hnc
    push_neg at hnc
    obtain ⟨hm, hh, hd⟩ := hnc
    have hm0 : tdMinutes td = 0 := Nat.le_zero.mp hm
    have hh0 : ¬ (tdHours td > 0 ∨ td.days > 0) := by
      rintro (h | h) <;> omega
    have hc3 : ¬ (tdMinutes td > 0 ∨ tdHours td > 0 ∨ td.days > 0) := by
      rintro (h | h | h) <;> omega
    have hd0 : ¬ (td.days > 0) := by omega
    rw [formatParts, if_neg hd0, if_neg hh0, if_neg hc3] at hmem
    simp only [List.nil_append] at hmem
    by_cases hincl : incl_seconds = true
    · rw [if_pos hincl] at hmem
      have heq := List.mem_singleton.mp hmem
      rw [hm0] at heq
      exact fmtUnit_zero_minute_ne_second (tdSecs td) (by exact_mod_cast heq)
    · rw [if_neg hincl] at hmem
      exact absurd hmem (List.not_mem_nil _)
  · intro hc
    rw [formatParts, if_pos hc]
    simp

theorem format_timedelta_vectors_witness :
    fmtUnit (tdMinutes (mkTimedelta 90061)) "minute".data ∈
      formatParts (mkTimedelta 90061) false :=
  (format_timedelta_vectors_and_minutes_rule.2.2 (mkTimedelta 90061) false).mpr
    (by decide)

/-- Concrete environment in which the git status command times out. -/
def gitEnvTimeout : GitCmdEnv :=
  { branchResult := .completed 0 "main\n".data "".data
    statusResult := .timeout "Command timed out".data }

/-- The GitStatus that `_get_git_status` returns in `gitEnvTimeout`. -/
def gitStatusTimeoutVal : GitStatus :=
  { repo_path := "r".data, branch := "main".data, is_clean := false
    ahead := 0, behind := 0, staged := 0, modified := 0, untracked := 0
    error := some "Command timed out".data }

/-- C4 (counterexample): on a status-command timeout, `_get_git_status`
returns `is_clean=false` with staged=modified=untracked=0, so the claimed
iff between `is_clean` and the three counters being zero fails. -/
theorem git_status_timeout_breaks_clean_iff :
    _get_git_status gitEnvTimeout "r".data = .ok gitStatusTimeoutVal ∧
    ¬ (gitStatusTimeoutVal.is_clean = true ↔
        (gitStatusTimeoutVal.staged = 0 ∧ gitStatusTimeoutVal.modified = 0 ∧
         gitStatusTimeoutVal.untracked = 0)) := by
  decide

/-- C4 (amended): for every GitStatus value returned by `_get_git_status`,
when its error field is none (the parser path) `is_clean` holds iff
staged=modified=untracked=0 (ahead/behind playing no role); on subprocess
failure paths (error populated) `is_clean` is false while the three
counters are zeroed, so the iff holds only on the success path. -/
theorem git_status_clean_iff_on_success (env : GitCmdEnv) (repo : PyStr)
    (st : GitStatus) (hok : _get_git_status env repo = .ok st) :
    (st.error = none →
      (st.is_clean = true ↔ (st.staged = 0 ∧ st.modified = 0 ∧ st.untracked = 0))) ∧
    (st.error ≠ none →
      st.is_clean = false ∧ st.staged = 0 ∧ st.modified = 0 ∧ st.untracked = 0) := by
  obtain ⟨br, sr⟩ := env
  cases br with
  | timeout e =>
    simp only [_get_git_status, Except.ok.injEq] at hok
    subst hok
    exact ⟨fun hc => by simp at hc, fun _ => ⟨rfl, rfl, rfl, rfl⟩⟩
  | notFound e =>
    simp only [_get_git_status, Except.ok.injEq] at hok
    subst hok
    exact ⟨fun hc => by simp at hc, fun _ => ⟨rfl, rfl, rfl, rfl⟩⟩
  | completed rc out err =>
    cases sr with
    | timeout e =>
      simp only [_get_git_status, Except.ok.injEq] at hok
      subst hok
      exact ⟨fun hc => by simp at hc, fun _ => ⟨rfl, rfl, rfl, rfl⟩⟩
    | notFound e =>
      simp only [_get_git_status] at hok
      exact absurd hok (by simp)
    | completed rc2 out2 err2 =>
      simp only [_get_git_status] at hok
      by_cases hrc : rc2 ≠ 0
      · rw [if_pos hrc] at hok
        simp only [Except.ok.injEq] at hok
        subst hok
        exact ⟨fun hc => by simp at hc, fun _ => ⟨rfl, rfl, rfl, rfl⟩⟩
      · rw [if_neg hrc] at hok
        simp only [_parse_git_status] at hok
        rcases hfold : List.foldlM gitStatusLine
            { ahead := 0, behind := 0, staged := 0, modified := 0, untracked := 0 }
            (splitOnSub "\n".data (pyStrip out2)) with e | c <;> rw [hfold] at hok
        · exact absurd hok (by simp)
        · simp only [Except.ok.injEq] at hok
          subst hok
          constructor
          · intro _
            simp [Bool.and_eq_true, beq_iff_eq, and_assoc]
          · intro hne
            exact absurd rfl hne

/-- Concrete environment in which both git commands succeed. -/
def gitEnvOK : GitCmdEnv :=
  { branchResult := .completed 0 "main\n".data "".data
    statusResult := .completed 0
      "## main...origin/main [ahead 2, behind 1]\nM  file.txt\n?? new.txt\n".data
      "".data }

/-- The GitStatus that `_get_git_status` returns in `gitEnvOK`. -/
def gitStatusOKVal : GitStatus :=
  { repo_path := "r".data, branch := "main".data, is_clean := false
    ahead := 2, behind := 1, staged := 1, modified := 0, untracked := 1
    error := none }

theorem git_status_clean_iff_on_success_witness :
    gitStatusOKVal.is_clean = true ↔
      (gitStatusOKVal.staged = 0 ∧ gitStatusOKVal.modified = 0 ∧
       gitStatusOKVal.untracked = 0) :=
  (git_status_clean_iff_on_success gitEnvOK "r".data gitStatusOKVal
    (by decide)).1 (by decide)

/-- An environment whose process table holds one entry that vanishes
between `psutil.process_iter()` and the `process.name()` call. -/
def sshRaceEnv : SSHEnv :=
  { procs := [{ pid := 7, name := none }], conns := []
    recv := fun _ _ => none, pick := fun l => l.headD 0 }

/-- C6: contrary to the never-throws claim, `get_ssh_status` propagates
`psutil.NoSuchProcess` when a process disappears between enumeration and
the unguarded `process.name()` call in `_is_sshd_running` — no SSHStatus
value is returned at all. -/
theorem ssh_status_raises_on_vanished_process :
    get_ssh_status sshRaceEnv none = .error (.noSuchProcess 7) := by decide

/-- C10: every SSHStatus value that `get_ssh_status` actually returns has
`error_message = None`: the constructor call at ssh_detector.py lines
51-56 omits the field, leaving its declared default. -/
theorem ssh_status_error_message_none (env : SSHEnv) (cache : Option Nat)
    (st : SSHStatus) (c2 : Option Nat) (pr : Bool)
    (h : get_ssh_status env cache = .ok (st, c2, pr)) :
    st.error_message = none := by
  simp only [get_ssh_status] at h
  rcases hrun : _is_sshd_running env.procs with e | ⟨a, b⟩ <;> rw [hrun] at h
  · exact absurd h (by simp)
  · simp only [Except.ok.injEq, Prod.mk.injEq] at h
    obtain ⟨h1, _, _⟩ := h
    rw [← h1]

theorem ssh_status_error_message_none_witness :
    ({ is_active := false, active_connections := none, port := none
       pid := none } : SSHStatus).error_message = none :=
  ssh_status_error_message_none
    { procs := [], conns := [], recv := fun _ _ => none, pick := fun l => l.headD 0 }
    none
    { is_active := false, active_connections := none, port := none, pid := none }
    none true (by decide)

/-- C8: every list returned by `get_connections_list_filtered` contains
no TIME_WAIT rows and is sorted ascending by the (local ip, local port)
tuple. -/
theorem connections_filtered_and_sorted (conns_list : List Sconn) :
    (∀ c ∈ get_connections_list_filtered conns_list,
        c.status ≠ "TIME_WAIT".data) ∧
    List.Sorted laddrLe (get_connections_list_filtered conns_list) := by
  constructor
  · intro c hc
    have hperm :
        (get_connections_list_filtered conns_list).Perm
          (conns_list.filter fun c => c.status ≠ "TIME_WAIT".data) :=
      List.perm_insertionSort laddrLe _
    have hmem := hperm.mem_iff.mp hc
    have := (List.mem_filter.mp hmem).2
    exact of_decide_eq_true this
  · exact List.sorted_insertionSort laddrLe _

theorem connections_filtered_and_sorted_witness :
    ({ ip := "a".data, port := 1, status := "LISTEN".data } : Sconn).status ≠
        "TIME_WAIT".data ∧
    List.Sorted laddrLe (get_connections_list_filtered
      [{ ip := "b".data, port := 2, status := "LISTEN".data },
       { ip := "a".data, port := 1, status := "LISTEN".data },
       { ip := "a".data, port := 5, status := "TIME_WAIT".data }]) :=
  ⟨(connections_filtered_and_sorted
      [{ ip := "b".data, port := 2, status := "LISTEN".data },
       { ip := "a".data, port := 1, status := "LISTEN".data },
       { ip := "a".data, port := 5, status := "TIME_WAIT".data }]).1
      { ip := "a".data, port := 1, status := "LISTEN".data } (by decide),
   (connections_filtered_and_sorted
      [{ ip := "b".data, port := 2, status := "LISTEN".data },
       { ip := "a".data, port := 1, status := "LISTEN".data },
       { ip := "a".data, port := 5, status := "TIME_WAIT".data }]).2⟩

/-- Two LISTEN connections on the same port (an IPv4 and an IPv6 socket). -/
def sshTwoConns : List Sconn :=
  [{ ip := "0.0.0.0".data, port := 22, status := "LISTEN".data },
   { ip := "::".data, port := 22, status := "LISTEN".data }]

/-- A probe environment in which every socket answers with an SSH banner. -/
def sshBannerRecv : PyStr → Nat → Option PyStr :=
  fun _ _ => some "SSH-2.0-OpenSSH_9".data

/-- C2 (counterexample): two LISTEN connections' probes both match (both
yield an SSH banner), yet no warning is emitted, because the `ports` set
counts distinct ports, not matching probes — contradicting the claim that
two or more matching probes emit a warning. -/
theorem ssh_detect_two_matching_conns_no_warning :
    (_probe_ssh_once (sshBannerRecv "0.0.0.0".data 22)).isSome = true ∧
    (_probe_ssh_once (sshBannerRecv "::".data 22)).isSome = true ∧
    _detect_ssh_port_unpriveleged (fun l => l.headD 0) sshBannerRecv sshTwoConns =
      (some 22, false) := by
  decide

/-- C2 (amended): with the matched-port set (distinct local ports of the
LISTEN connections whose probe yields an SSH banner): a singleton set
means that port is returned with no warning; an empty set means None with
no warning; two or more distinct ports mean some member of the set is
returned (whichever `set.pop()` yields) and the warning is emitted.
Matching connections that share one port collapse to one member and do
not warn. -/
theorem ssh_detect_port_cases (pick : List Nat → Nat)
    (recv : PyStr → Nat → Option PyStr) (conns : List Sconn)
    (hpick : ∀ l : List Nat, l ≠ [] → pick l ∈ l) :
    (∀ p : Nat, matchedPortsList recv conns = [p] →
        _detect_ssh_port_unpriveleged pick recv conns = (some p, false)) ∧
    (matchedPortsList recv conns = [] →
        _detect_ssh_port_unpriveleged pick recv conns = (none, false)) ∧
    (1 < (matchedPortsList recv conns).length →
        (_detect_ssh_port_unpriveleged pick recv conns).1 =
          some (pick (matchedPortsList recv conns)) ∧
        pick (matchedPortsList recv conns) ∈ matchedPortsList recv conns ∧
        (_detect_ssh_port_unpriveleged pick recv conns).2 = true) := by
  refine ⟨?_, ?_, ?_⟩
  · intro p hp
    have hmem := hpick [p] (by simp)
    simp only [List.mem_singleton] at hmem
    simp [_detect_ssh_port_unpriveleged, hp, hmem]
  · intro hp
    simp [_detect_ssh_port_unpriveleged, hp]
  · intro hlen
    have hne : matchedPortsList recv conns ≠ [] := by
      intro h0
      rw [h0] at hlen
      simp at hlen
    have hob : (matchedPortsList recv conns).isEmpty = false := by
      simpa [List.isEmpty_iff] using hne
    refine ⟨?_, hpick _ hne, ?_⟩
    · simp [_detect_ssh_port_unpriveleged, hob]
    · simp [_detect_ssh_port_unpriveleged, hob, hlen]

/-- Two LISTEN sockets of which only the one on port 22 talks SSH. -/
def sshWitnessConns : List Sconn :=
  [{ ip := "127.0.0.1".data, port := 22, status := "LISTEN".data },
   { ip := "0.0.0.0".data, port := 80, status := "LISTEN".data }]

/-- Probe outcomes: an SSH banner on port 22, an HTTP reply elsewhere. -/
def sshWitnessRecv : PyStr → Nat → Option PyStr :=
  fun _ p =>
    if p = 22 then some "SSH-2.0-OpenSSH_9".data
    else some "HTTP/1.0 200 OK".data

theorem ssh_detect_port_cases_witness :
    _detect_ssh_port_unpriveleged (fun l => l.headD 0) sshWitnessRecv
      sshWitnessConns = (some 22, false) :=
  (ssh_detect_port_cases (fun l => l.headD 0) sshWitnessRecv sshWitnessConns
    (by
      intro l hl
      cases l with
      | nil => exact absurd rfl hl
      | cons a as => exact List.mem_cons_self a as)).1 22 (by decide)

/-- An environment with an SSH server listening on port 0 (expressible in
the connection-table domain, where the truthiness slip shows). -/
def sshPortZeroEnv : SSHEnv :=
  { procs := []
    conns := [{ ip := "0.0.0.0".data, port := 0, status := "LISTEN".data }]
    recv := fun _ _ => some "SSH-2.0-OpenSSH_9".data
    pick := fun l => l.headD 0 }

/-- C5 (counterexample): the first call detects the (non-None) port 0 and
stores it in the cache, yet the second call probes sockets again (its
probed flag is true), because `if ModuleCache.ssh_port:` tests Python
truthiness rather than `is not None` — contradicting the claim for every
non-None detected port. -/
theorem ssh_cache_port_zero_reprobes :
    get_ssh_status sshPortZeroEnv none =
      .ok ({ is_active := false, active_connections := none, port := some 0
             pid := none }, some 0, true) ∧
    get_ssh_status sshPortZeroEnv (some 0) =
      .ok ({ is_active := false, active_connections := none, port := some 0
             pid := none }, some 0, true) := by
  decide

/-- C5 (amended): starting from an empty cache, if the first call detects
a truthy (nonzero) port, the second call reuses the cached port and does
not probe sockets; if the first call detects no port (None), the cache is
left unset and the second call probes again. (A detected port of 0 is
non-None but falsy, so it is re-probed — the truthiness slip.) -/
theorem ssh_port_memoization (env : SSHEnv) (st : SSHStatus)
    (c : Option Nat) (pr : Bool)
    (h : get_ssh_status env none = .ok (st, c, pr)) :
    (∀ p : Nat, st.port = some p → p ≠ 0 →
        ∃ st2, get_ssh_status env c = .ok (st2, some p, false) ∧
          st2.port = some p) ∧
    (st.port = none → ∃ st2 c2, get_ssh_status env c = .ok (st2, c2, true)) := by
  simp only [get_ssh_status] at h ⊢
  rcases hrun : _is_sshd_running env.procs with e | ⟨a, b⟩
  · rw [hrun] at h
    simp at h
  · rw [hrun] at h
    simp only [sshPortStep, Except.ok.injEq, Prod.mk.injEq] at h
    obtain ⟨hst, hc, hpr⟩ := h
    have hport := congrArg SSHStatus.port hst
    simp only at hport
    constructor
    · intro p hp hp0
      rw [hp] at hport
      rw [← hc, hport]
      simp only [sshPortStep, if_pos hp0]
      exact ⟨_, rfl, rfl⟩
    · intro hp
      rw [hp] at hport
      rw [← hc, hport]
      simp only [sshPortStep]
      exact ⟨_, _, rfl⟩

/-- A healthy environment: sshd running, one LISTEN socket answering SSH. -/
def sshMemoEnv : SSHEnv :=
  { procs := [{ pid := 5, name := some "sshd".data }]
    conns := [{ ip := "127.0.0.1".data, port := 22, status := "LISTEN".data }]
    recv := fun _ _ => some "SSH-2.0-OpenSSH_9".data
    pick := fun l => l.headD 0 }

/-- The status the first `get_ssh_status` call returns in `sshMemoEnv`. -/
def sshMemoSt : SSHStatus :=
  { is_active := true, active_connections := some [], port := some 22
    pid := some 5 }

theorem ssh_port_memoization_witness :
    ∃ st2, get_ssh_status sshMemoEnv (some 22) = .ok (st2, some 22, false) ∧
      st2.port = some 22 :=
  (ssh_port_memoization sshMemoEnv sshMemoSt (some 22) true (by decide)).1 22
    (by decide) (by decide)

/-- C7 (counterexample): a 4-field session line whose created field is not
a float is not dropped silently — `float()` raises a `ValueError` that the
handler re-raises out of `_get_sessions`. -/
theorem tmux_sessions_nonfloat_created_raises :
    _get_sessions { sessionsOutput := some "a|1|x|0".data
                    clientsOutput := fun _ => none, now := { num := 0, den := 1 } } =
      .error (.valueError "x".data) := by
  decide

/-- C7 (amended): a line that does not split on the pipe into exactly 4
fields is skipped silently; a 4-field line whose numeric fields parse
yields a TmuxSession with `attached` true iff the 4th field is not the
literal "0"; but a 4-field line whose created field fails `float()`
raises a ValueError rather than being dropped. -/
theorem tmux_session_line_parsing (env : TmuxEnv) (acc : List TmuxSession)
    (line : PyStr) :
    ((splitOnSub "|".data line).length ≠ 4 →
        tmuxSessionLine env acc line = .ok acc) ∧
    (∀ session_name windows_str created_str attached_str cf cl wi,
        splitOnSub "|".data line =
          [session_name, windows_str, created_str, attached_str] →
        pyFloatParse created_str = some cf →
        _get_clients_for_session env session_name = .ok cl →
        pyIntParse windows_str = some wi →
        tmuxSessionLine env acc line =
          .ok (acc ++ [{ name := session_name, windows := wi
                         created :=
                           format_timedelta
                             (tdOfFloatSeconds (pyFloatSub env.now cf)) false
                         attached := attached_str != "0".data
                         clients := cl }])) ∧
    (∀ session_name windows_str created_str attached_str,
        splitOnSub "|".data line =
          [session_name, windows_str, created_str, attached_str] →
        pyFloatParse created_str = none →
        tmuxSessionLine env acc line = .error (.valueError created_str)) := by
  refine ⟨?_, ?_, ?_⟩
  · intro h4
    by_cases hline : line = []
    · simp [tmuxSessionLine, hline]
    · simp only [tmuxSessionLine, if_neg hline]
      split
      · next a b c d heq => exact absurd (by rw [heq]; rfl) h4
      · rfl
  · intro session_name windows_str created_str attached_str cf cl wi
      hsp hcf hcl hwi
    have hline : line ≠ [] := by
      intro h0
      rw [h0] at hsp
      simp [splitOnSub, splitOnSubAux, breakOnSub] at hsp
    simp only [tmuxSessionLine, if_neg hline, hsp]
    simp only [pyFloatE, hcf, hcl, pyIntE, hwi]
  · intro session_name windows_str created_str attached_str hsp hcf
    have hline : line ≠ [] := by
      intro h0
      rw [h0] at hsp
      simp [splitOnSub, splitOnSubAux, breakOnSub] at hsp
    simp only [tmuxSessionLine, if_neg hline, hsp]
    simp only [pyFloatE, hcf]

/-- A tmux environment with no clients, observed 90061s after epoch. -/
def tmuxEnvW : TmuxEnv :=
  { sessionsOutput := some "main|2|0|1".data
    clientsOutput := fun _ => none, now := { num := 90061, den := 1 } }

theorem tmux_session_line_parsing_witness :
    tmuxSessionLine tmuxEnvW [] "main|2|0|1".data =
      .ok [{ name := "main".data, windows := 2
             created := "1 day, 1 hour, 1 minute".data
             attached := true, clients := [] }] :=
  ((tmux_session_line_parsing tmuxEnvW [] "main|2|0|1".data).2.1
    "main".data "2".data "0".data "1".data { num := 0, den := 1 } [] 2
    (by decide) (by decide) (by decide) (by decide)).trans (by decide)
